import Mathlib

/-!
Verification development for the image-service repository
(`internal/domain/image.go`, `internal/processor/processor.go`,
`internal/repository/image_repository.go`, `internal/storage/mock_s3.go`,
`internal/service/image_service.go`).

The Go code is shallowly embedded: pure functions become Lean functions,
each stateful collaborator (the metadata repository and the object store)
becomes an explicit state record threaded through the service operations,
and every external call the service makes is recorded in an explicit call
trace so that ordering properties can be stated.  Go maps are modelled as
association lists with overwrite-on-insert semantics; Go `uuid.UUID`
values are modelled as `Nat` (with `0` playing the role of `uuid.Nil`);
`time.Time` is modelled as `Nat` (with `0` being the zero time, so that
`IsZero` becomes equality with `0`); byte slices are `List Nat`.
Collaborator failures (which in Go arrive through the injected
`S3Interface` / `ImageRepository` interfaces) are modelled by
fault-injection fields on the state records; with all fault fields empty
or `false` the model computes exactly what the in-memory implementations
(`MockS3`, `MockImageRepository`) compute.
-/

deriving instance DecidableEq for Except

set_option maxRecDepth 10000

namespace ImageService

/-! ## Association-list model of Go maps -/

/-- Lookup in a Go map modelled as an association list (first match wins;
the `mapSet` below keeps at most one binding per key). -/
def mapGet {α β : Type} [DecidableEq α] : List (α × β) → α → Option β
  | [], _ => none
  | (k, v) :: rest, key => if k = key then some v else mapGet rest key

/-- Go `delete(m, key)`: remove every binding of `key`. -/
def mapDel {α β : Type} [DecidableEq α] : List (α × β) → α → List (α × β)
  | [], _ => []
  | (k, v) :: rest, key =>
      if k = key then mapDel rest key else (k, v) :: mapDel rest key

/-- Go `m[key] = v`: overwrite any existing binding. -/
def mapSet {α β : Type} [DecidableEq α] (m : List (α × β)) (k : α) (v : β) :
    List (α × β) :=
  (k, v) :: mapDel m k

theorem mapGet_nil {α β : Type} [DecidableEq α] (k : α) :
    mapGet ([] : List (α × β)) k = none := rfl

theorem mapGet_del_self {α β : Type} [DecidableEq α]
    (m : List (α × β)) (k : α) : mapGet (mapDel m k) k = none := by
  induction m with
  | nil => rfl
  | cons p rest ih =>
      obtain ⟨pk, pv⟩ := p
      by_cases h : pk = k <;> simp [mapDel, mapGet, h, ih]

theorem mapGet_del_ne {α β : Type} [DecidableEq α]
    (m : List (α × β)) (k k' : α) (h : k ≠ k') :
    mapGet (mapDel m k) k' = mapGet m k' := by
  induction m with
  | nil => rfl
  | cons p rest ih =>
      obtain ⟨pk, pv⟩ := p
      by_cases hp : pk = k
      · subst hp
        simp [mapDel, mapGet, ih, h]
      · by_cases hp' : pk = k'
        · subst hp'
          simp [mapDel, mapGet, hp, ih]
        · simp [mapDel, mapGet, hp, hp', ih]

theorem mapGet_set_self {α β : Type} [DecidableEq α]
    (m : List (α × β)) (k : α) (v : β) : mapGet (mapSet m k v) k = some v := by
  simp [mapSet, mapGet]

theorem mapGet_set_ne {α β : Type} [DecidableEq α]
    (m : List (α × β)) (k k' : α) (v : β) (h : k ≠ k') :
    mapGet (mapSet m k v) k' = mapGet m k' := by
  simp [mapSet, mapGet, h, mapGet_del_ne m k k' h]

/-! ## Domain model (`internal/domain/image.go`) -/

/-- Model of `domain.Size`: dimensions for an image variant (Go `int`). -/
structure Size where
  width : Int
  height : Int
deriving DecidableEq

/-- Model of `domain.ImageType`: a named category of images; `sizes` models the Go
`SizeSet` map as an association list. -/
structure ImageType where
  name : String
  sizes : List (String × Size)
deriving DecidableEq

/-- Model of `domain.ImageConfig`. -/
structure ImageConfig where
  types : List ImageType
deriving DecidableEq

/-- Model of `domain.Image`: the persisted metadata record.  GUIDs are `Nat`
(`0` = `uuid.Nil`), times are `Nat` (`0` = zero time). -/
structure Image where
  guid : Nat
  ownerGUID : Nat
  typeName : String
  smallURL : String
  mediumURL : String
  largeURL : String
  createdAt : Nat
  updatedAt : Nat
  contentType : String
  originalWidth : Int
  originalHeight : Int
deriving DecidableEq

/-- Model of `domain.UserImage`: the view returned to callers. -/
structure UserImage where
  userGUID : Nat
  imageGUID : Nat
  smallURL : String
  mediumURL : String
  largeURL : String
  updatedAt : Nat
deriving DecidableEq

/-- Embeds `domain.NewImage` followed by the service's immediate overwrite of the
generated GUID (`image.GUID = imageGUID` in `UploadUserImage`): the GUID
produced inside `NewImage` by `uuid.New()` is discarded, so the model takes
the final GUID and the current time (`time.Now().UTC()`) as parameters.
All other fields start at their Go zero values. -/
def newImage (ownerGUID : Nat) (typeName : String) (guid : Nat) (now : Nat) :
    Image :=
  { guid := guid, ownerGUID := ownerGUID, typeName := typeName,
    smallURL := "", mediumURL := "", largeURL := "",
    createdAt := now, updatedAt := now,
    contentType := "", originalWidth := 0, originalHeight := 0 }

/-- Embeds `Image.ToUserImage`. -/
def toUserImage (i : Image) : UserImage :=
  { userGUID := i.ownerGUID, imageGUID := i.guid,
    smallURL := i.smallURL, mediumURL := i.mediumURL,
    largeURL := i.largeURL, updatedAt := i.updatedAt }

/-- Embeds `domain.GetImageTypeByName`: first type whose name matches. -/
def getImageTypeByName (config : ImageConfig) (name : String) :
    Option ImageType :=
  config.types.find? (fun t => t.name == name)

/-! ## Processor (`internal/processor/processor.go`) -/

/-- JPEG signature check from `DetectImageFormat`:
`bytes.Equal(imgData[0:2], []byte{0xFF, 0xD8})`. -/
def isJpegSig (data : List Nat) : Prop := data.take 2 = [0xFF, 0xD8]

/-- PNG signature check: the 8-byte PNG magic. -/
def isPngSig (data : List Nat) : Prop :=
  data.take 8 = [0x89, 0x50, 0x4E, 0x47, 0x0D, 0x0A, 0x1A, 0x0A]

/-- GIF signature check: `GIF87a` or `GIF89a`. -/
def isGifSig (data : List Nat) : Prop :=
  data.take 6 = [0x47, 0x49, 0x46, 0x38, 0x37, 0x61] ∨
  data.take 6 = [0x47, 0x49, 0x46, 0x38, 0x39, 0x61]

/-- WEBP signature check: `RIFF` at offset 0 and `WEBP` at offset 8. -/
def isWebpSig (data : List Nat) : Prop :=
  data.take 4 = [0x52, 0x49, 0x46, 0x46] ∧
  (data.drop 8).take 4 = [0x57, 0x45, 0x42, 0x50]

instance (data : List Nat) : Decidable (isJpegSig data) := by
  unfold isJpegSig; infer_instance

instance (data : List Nat) : Decidable (isPngSig data) := by
  unfold isPngSig; infer_instance

instance (data : List Nat) : Decidable (isGifSig data) := by
  unfold isGifSig; infer_instance

instance (data : List Nat) : Decidable (isWebpSig data) := by
  unfold isWebpSig; infer_instance

/-- Embeds `Processor.DetectImageFormat`: length guard, then the magic-byte checks
in source order. -/
def detectImageFormat (data : List Nat) : Except String String :=
  if data.length < 12 then
    Except.error "image data too small to determine format"
  else if isJpegSig data then Except.ok "image/jpeg"
  else if isPngSig data then Except.ok "image/png"
  else if isGifSig data then Except.ok "image/gif"
  else if isWebpSig data then Except.ok "image/webp"
  else Except.error "unsupported image format"

/-! `CalculateResizeDimensions` computes with Go `float64` values, so the
embedding carries an executable model of IEEE-754 binary64 arithmetic:
every `float64` value arising here is an exact rational, represented as an
unnormalised integer fraction (`Frac`), and each Go floating-point
operation rounds its exact rational result to 53 significant bits with
round-to-nearest, ties-to-even (`fl64`).  The exponent is unbounded —
overflow to infinity, subnormal rounding and NaN are outside the modelled
range — which coincides with binary64 for every finite normal value, and
all values reachable from Go `int` inputs through the conversions, one
division and one multiplication below are finite and normal (magnitudes
between roughly `2^-64` and `2^127`), except for a division by zero,
which the sources' claims exclude (`origW, origH > 0`). -/

/-- Fuel-bounded `⌊log2⌋` helper (structural recursion so that the kernel
can evaluate it). -/
def log2Fuel : Nat → Nat → Nat
  | 0, _ => 0
  | fuel + 1, n => if n < 2 then 0 else log2Fuel fuel (n / 2) + 1

/-- Floor of `log2 n` for positive `n` (0 at 0). -/
def natLog2F (n : Nat) : Nat := log2Fuel n n

/-- Powers of two by structural recursion. -/
def pow2 : Nat → Nat
  | 0 => 1
  | n + 1 => 2 * pow2 n

/-- Exact rational value of a `float64`, as an unnormalised fraction with
positive denominator. -/
structure Frac where
  num : Int
  den : Nat
deriving DecidableEq

/-- Go conversion `float64(n)` of an `int`, before rounding. -/
def fracOfInt (n : Int) : Frac := ⟨n, 1⟩

/-- Exact product of two fraction values. -/
def fracMul (a b : Frac) : Frac := ⟨a.num * b.num, a.den * b.den⟩

/-- Exact quotient of two fraction values (denominator kept positive;
division by zero yields the junk denominator 0, which the claims' positive
originals exclude). -/
def fracDiv (a b : Frac) : Frac :=
  if b.num < 0 then ⟨-(a.num * (b.den : Int)), a.den * b.num.natAbs⟩
  else ⟨a.num * (b.den : Int), a.den * b.num.natAbs⟩

/-- Go conversion `int(x)`: truncation toward zero. -/
def fracTrunc (q : Frac) : Int := Int.tdiv q.num (q.den : Int)

/-- Round an exact fraction value to IEEE-754 binary64: keep 53
significant bits, round to nearest with ties to even (unbounded
exponent).  The scaled magnitude `|q| / 2^e` lies in `[2^52, 2^53)`; its
integer part is kept and the fractional remainder decides the rounding
direction. -/
def fl64 (q : Frac) : Frac :=
  if q.num = 0 then ⟨0, 1⟩
  else
    let n := q.num.natAbs
    let d := q.den
    let k := natLog2F n
    let m := natLog2F d
    let e0 : Int :=
      if m ≤ k then
        (if pow2 (k - m) * d ≤ n then ((k - m : Nat) : Int)
         else ((k - m : Nat) : Int) - 1)
      else
        (if d ≤ n * pow2 (m - k) then -((m - k : Nat) : Int)
         else -((m - k : Nat) : Int) - 1)
    let e : Int := e0 - 52
    let sn : Nat := if 0 ≤ e then n else n * pow2 (-e).toNat
    let sd : Nat := if 0 ≤ e then d * pow2 e.toNat else d
    let fl : Nat := sn / sd
    let r : Nat := sn % sd
    let mant : Nat :=
      if 2 * r < sd then fl
      else if sd < 2 * r then fl + 1
      else if fl % 2 = 0 then fl else fl + 1
    let sgn : Int := if q.num < 0 then -1 else 1
    if 0 ≤ e then ⟨sgn * ((mant * pow2 e.toNat : Nat) : Int), 1⟩
    else ⟨sgn * (mant : Int), pow2 (-e).toNat⟩

/-- Embeds `Processor.CalculateResizeDimensions` with `float64` semantics:
`aspectRatio := float64(origH) / float64(origW)` converts each operand
(rounding ints beyond 2^53) and rounds the quotient once, and
`int(float64(target) * aspectRatio)` rounds the product once and then
truncates toward zero. -/
def calculateResizeDimensions (origWidth origHeight targetWidth targetHeight :
    Int) : Int × Int :=
  if targetWidth > 0 ∧ targetHeight > 0 then
    (targetWidth, targetHeight)
  else if targetWidth > 0 ∧ targetHeight = 0 then
    let aspect := fl64 (fracDiv (fl64 (fracOfInt origHeight))
      (fl64 (fracOfInt origWidth)))
    (targetWidth, fracTrunc (fl64 (fracMul (fl64 (fracOfInt targetWidth))
      aspect)))
  else if targetHeight > 0 ∧ targetWidth = 0 then
    let aspect := fl64 (fracDiv (fl64 (fracOfInt origWidth))
      (fl64 (fracOfInt origHeight)))
    (fracTrunc (fl64 (fracMul (fl64 (fracOfInt targetHeight)) aspect)),
      targetHeight)
  else
    (origWidth, origHeight)

/-! ## Object store (`internal/storage/mock_s3.go` plus the `S3Interface`
failure modes the service is programmed against)

The state follows `MockS3` (an in-memory map of key to body, with the
default CDN base URL `https://cdn.example.com`).  `putFailKeys` and
`deleteFailKeys` inject collaborator failures — through the Go
`S3Interface` a `Put`/`Delete` call may return an error, which `MockS3`
itself never does for `Put`; with both lists empty the model is exactly
`MockS3`. -/

structure S3State where
  objects : List (String × List Nat)
  putFailKeys : List String
  deleteFailKeys : List String
deriving DecidableEq

/-- Embeds `MockS3.GetURL` with the `NewMockS3` default `cdnBaseURL`. -/
def getURL (key : String) : String := "https://cdn.example.com/" ++ key

/-- Embeds `MockS3.GenerateUserImageKey`:
`fmt.Sprintf("images/user/%s/%s/%s.jpg", userGUID, imageGUID, size)`. -/
def generateUserImageKey (userGUID imageGUID : Nat) (size : String) : String :=
  "images/user/" ++ toString userGUID ++ "/" ++ toString imageGUID ++ "/"
    ++ size ++ ".jpg"

/-- Embeds `S3Interface.Put` (`MockS3.Put` behaviour, plus injected failure on the
keys in `putFailKeys`): store the body and return the public URL. -/
def s3Put (s : S3State) (key : String) (body : List Nat) :
    Except Unit String × S3State :=
  if key ∈ s.putFailKeys then (Except.error (), s)
  else (Except.ok (getURL key), { s with objects := mapSet s.objects key body })

/-- Embeds `S3Interface.Delete` (`MockS3.Delete` behaviour — an absent key is an
error — plus injected failure on the keys in `deleteFailKeys`). -/
def s3Delete (s : S3State) (key : String) : Except Unit Unit × S3State :=
  if key ∈ s.deleteFailKeys then (Except.error (), s)
  else
    match mapGet s.objects key with
    | none => (Except.error (), s)
    | some _ => (Except.ok (), { s with objects := mapDel s.objects key })

/-! ## Metadata repository (`internal/repository/image_repository.go`,
`MockImageRepository`)

The two Go maps (`images` by GUID, `byOwner` by owner GUID + type name) are
both modelled, exactly as the mock keeps them.  `saveFail` / `deleteFail`
inject collaborator failures available through the `ImageRepository`
interface (e.g. the Postgres implementation's database errors); with both
`false` the model is exactly `MockImageRepository`. -/

structure RepoState where
  images : List (Nat × Image)
  byOwner : List ((Nat × String) × Image)
  saveFail : Bool
  deleteFail : Bool
deriving DecidableEq

/-- Embeds `MockImageRepository.SaveImage`: validates required fields, sets
`CreatedAt` when zero and refreshes `UpdatedAt` (mutating the record the
caller holds, which the model returns), then stores the record in both
maps. -/
def saveImage (r : RepoState) (image : Image) (now : Nat) :
    Except Unit Image × RepoState :=
  if r.saveFail then (Except.error (), r)
  else if image.guid = 0 then (Except.error (), r)
  else if image.ownerGUID = 0 then (Except.error (), r)
  else if image.typeName = "" then (Except.error (), r)
  else
    let image' := { image with
      createdAt := if image.createdAt = 0 then now else image.createdAt,
      updatedAt := now }
    (Except.ok image',
     { r with
        images := mapSet r.images image'.guid image',
        byOwner := mapSet r.byOwner (image'.ownerGUID, image'.typeName)
          image' })

/-- Embeds `MockImageRepository.GetImageByID` (`none` models `ErrNotFound`). -/
def getImageByID (r : RepoState) (imageGUID : Nat) : Option Image :=
  mapGet r.images imageGUID

/-- Embeds `MockImageRepository.GetImageByOwner`. -/
def getImageByOwner (r : RepoState) (ownerGUID : Nat) (typeName : String) :
    Option Image :=
  mapGet r.byOwner (ownerGUID, typeName)

/-- Embeds `MockImageRepository.DeleteImage`: look the record up by GUID (absent →
`ErrNotFound`), then remove it from both maps; `deleteFail` injects a
repository failure. -/
def deleteImage (r : RepoState) (imageGUID : Nat) :
    Except Unit RepoState :=
  if r.deleteFail then Except.error ()
  else
    match mapGet r.images imageGUID with
    | none => Except.error ()
    | some image =>
        Except.ok { r with
          images := mapDel r.images imageGUID,
          byOwner := mapDel r.byOwner (image.ownerGUID, image.typeName) }

/-! ## Service (`internal/service/image_service.go`) -/

/-- The service errors of `image_service.go` (`ErrInvalidImage` …), plus
`saveFailed` for the wrapped "failed to save image metadata" error,
`repoError` for the wrapped "failed to delete image metadata" error and
`configNotFound` for "image type configuration not found". -/
inductive SvcErr where
  | invalidImage
  | imageTooLarge
  | unsupportedType
  | processingFailed
  | storageFailed
  | notFound
  | unauthorized
  | saveFailed
  | repoError
  | configNotFound
deriving DecidableEq

/-- One call the service makes on a collaborator, for trace-based
ordering properties: `putObj`/`delObj` are `ObjectStore` calls (recorded
whether or not they fail), `repoSave`/`repoDel` are `MetadataStore`
calls. -/
inductive CallEv where
  | putObj (key : String)
  | delObj (key : String)
  | repoSave (guid : Nat)
  | repoDel (guid : Nat)
deriving DecidableEq

/-- The two collaborator states the service holds. -/
structure Stores where
  repo : RepoState
  s3 : S3State
deriving DecidableEq

/-- Stores with the empty mock maps and no injected faults. -/
def emptyStores : Stores :=
  { repo := { images := [], byOwner := [], saveFail := false,
              deleteFail := false },
    s3 := { objects := [], putFailKeys := [], deleteFailKeys := [] } }

/-- The storage-deletion loop of `ImageService.DeleteUserImage`
(`for _, size := range sizes` over `[small, medium, large]`): each
variant key is deleted, failures are logged and skipped. -/
def deleteVariantObjects (s3 : S3State) (userGUID imageGUID : Nat) :
    List String → S3State × List CallEv
  | [] => (s3, [])
  | size :: rest =>
      let key := generateUserImageKey userGUID imageGUID size
      let s3' := (s3Delete s3 key).2
      let step := deleteVariantObjects s3' userGUID imageGUID rest
      (step.1, CallEv.delObj key :: step.2)

/-- Embeds `ImageService.DeleteUserImage`: fetch the record by owner (absent →
`ErrNotFound`, no storage calls), delete the three variant objects
(failures ignored), then delete the metadata row (failure → error). -/
def deleteUserImage (st : Stores) (userGUID : Nat) :
    Except SvcErr Unit × Stores × List CallEv :=
  match getImageByOwner st.repo userGUID "user" with
  | none => (Except.error SvcErr.notFound, st, [])
  | some image =>
      let step := deleteVariantObjects st.s3 userGUID image.guid
        ["small", "medium", "large"]
      match deleteImage st.repo image.guid with
      | Except.error _ =>
          (Except.error SvcErr.repoError,
           { st with s3 := step.1 }, step.2 ++ [CallEv.repoDel image.guid])
      | Except.ok r' =>
          (Except.ok (), { repo := r', s3 := step.1 },
           step.2 ++ [CallEv.repoDel image.guid])

/-- The variant-upload loop of `ImageService.UploadUserImage`
(`for size, variantData := range variants`): generate the key, `Put`
(an error aborts the request with `ErrStorageFailed`), then record the
URL on the record for the sizes `small`/`medium`/`large` only.  The list
argument carries the variants in the (unspecified) iteration order of the
Go map. -/
def uploadVariants (s3 : S3State) (userGUID imageGUID : Nat) (image : Image) :
    List (String × List Nat) → Except SvcErr Image × S3State × List CallEv
  | [] => (Except.ok image, s3, [])
  | (size, variantData) :: rest =>
      let key := generateUserImageKey userGUID imageGUID size
      match s3Put s3 key variantData with
      | (Except.error _, s3') =>
          (Except.error SvcErr.storageFailed, s3', [CallEv.putObj key])
      | (Except.ok url, s3') =>
          let image' :=
            if size = "small" then { image with smallURL := url }
            else if size = "medium" then { image with mediumURL := url }
            else if size = "large" then { image with largeURL := url }
            else image
          let step := uploadVariants s3' userGUID imageGUID image' rest
          (step.1, step.2.1, CallEv.putObj key :: step.2.2)

/-- The per-request inputs of `UploadUserImage` that the Go code obtains
from collaborators the embedding treats as oracles: the result of
`GetImageDimensions` and of `ProcessImage` (whose variant map is listed in
its Go-map iteration order), the fresh GUID from `uuid.New()` and the
current time, plus the service configuration (`maxSize`, `config`). -/
structure UploadEnv where
  maxSize : Nat
  config : ImageConfig
  dimsResult : Except Unit (Int × Int)
  variantsResult : Except Unit (List (String × List Nat))
  imageGUID : Nat
  now : Nat
deriving DecidableEq

/-- Result of one `UploadUserImage` request.  `preTrace` holds the
collaborator calls of the internal "delete any existing image" step
(line 117 of `image_service.go`); `mainTrace` the calls made after it
(variant `Put`s and the metadata save). -/
structure UploadResult where
  result : Except SvcErr UserImage
  stores : Stores
  preTrace : List CallEv
  mainTrace : List CallEv
deriving DecidableEq

/-- All collaborator calls of the request, in order. -/
def UploadResult.trace (r : UploadResult) : List CallEv :=
  r.preTrace ++ r.mainTrace

/-- Validation prefix of `ImageService.UploadUserImage` (lines 63-111 of
`image_service.go`), all of it free of collaborator state: empty and size
validation, `DetectImageFormat` (the real embedded sniffer), the JPEG/PNG
allow-list, `GetImageDimensions`, `GetImageTypeByName` and `ProcessImage`
(the last two through the environment's oracles).  On success it yields
the detected content type, the dimensions and the rendered variants. -/
def validateAndRender (env : UploadEnv) (imageData : List Nat) :
    Except SvcErr (String × Int × Int × List (String × List Nat)) :=
  if imageData.length = 0 then Except.error SvcErr.invalidImage
  else if imageData.length > env.maxSize then Except.error SvcErr.imageTooLarge
  else
    match detectImageFormat imageData with
    | Except.error _ => Except.error SvcErr.unsupportedType
    | Except.ok contentType =>
        if contentType ≠ "image/jpeg" ∧ contentType ≠ "image/png" then
          Except.error SvcErr.unsupportedType
        else
          match env.dimsResult with
          | Except.error _ => Except.error SvcErr.processingFailed
          | Except.ok (width, height) =>
              match getImageTypeByName env.config "user" with
              | none => Except.error SvcErr.configNotFound
              | some _ =>
                  match env.variantsResult with
                  | Except.error _ => Except.error SvcErr.processingFailed
                  | Except.ok variants =>
                      Except.ok (contentType, width, height, variants)

/-- Record construction of `UploadUserImage` lines 125-130: `NewImage`
followed by setting the GUID, the original dimensions and the content
type. -/
def mkUploadImage (userGUID imageGUID now : Nat) (contentType : String)
    (width height : Int) : Image :=
  { newImage userGUID "user" imageGUID now with
    originalWidth := width, originalHeight := height,
    contentType := contentType }

/-- Embeds `ImageService.UploadUserImage`: the validation prefix (any
failure there returns before any external write, leaving both stores
untouched), then `uuid.New()`, the unconditional internal
`DeleteUserImage` whose error is ignored, the fresh record, the
variant-upload loop and the final `SaveImage`. -/
def uploadUserImage (env : UploadEnv) (st : Stores) (userGUID : Nat)
    (imageData : List Nat) : UploadResult :=
  match validateAndRender env imageData with
  | Except.error e =>
      { result := Except.error e, stores := st,
        preTrace := [], mainTrace := [] }
  | Except.ok (contentType, width, height, variants) =>
      let preStep := deleteUserImage st userGUID
      let st1 := preStep.2.1
      let image0 := mkUploadImage userGUID env.imageGUID env.now
        contentType width height
      match uploadVariants st1.s3 userGUID env.imageGUID
          image0 variants with
      | (Except.error e, s3', tr) =>
          { result := Except.error e,
            stores := { st1 with s3 := s3' },
            preTrace := preStep.2.2, mainTrace := tr }
      | (Except.ok image1, s3', tr) =>
          match saveImage st1.repo image1 env.now with
          | (Except.error _, r') =>
              { result := Except.error SvcErr.saveFailed,
                stores := { repo := r', s3 := s3' },
                preTrace := preStep.2.2,
                mainTrace :=
                  tr ++ [CallEv.repoSave image1.guid] }
          | (Except.ok image2, r') =>
              { result := Except.ok (toUserImage image2),
                stores := { repo := r', s3 := s3' },
                preTrace := preStep.2.2,
                mainTrace :=
                  tr ++ [CallEv.repoSave image1.guid] }

/-- Embeds `ImageService.GetUserImage`. -/
def getUserImage (st : Stores) (userGUID : Nat) : Except SvcErr UserImage :=
  match getImageByOwner st.repo userGUID "user" with
  | none => Except.error SvcErr.notFound
  | some image => Except.ok (toUserImage image)

/-- Embeds `ImageService.ValidateImageAccess`: returned together with the
(unchanged) stores, to state that the operation does not modify them. -/
def validateImageAccess (st : Stores) (userGUID imageGUID : Nat) :
    Except SvcErr Unit × Stores :=
  match getImageByID st.repo imageGUID with
  | none => (Except.error SvcErr.notFound, st)
  | some image =>
      if image.ownerGUID ≠ userGUID then (Except.error SvcErr.unauthorized, st)
      else (Except.ok (), st)

/-! ## Key-scheme facts -/

theorem string_append_left_cancel {p a b : String} (h : p ++ a = p ++ b) :
    a = b := by
  have hd : (p ++ a).data = (p ++ b).data := by rw [h]
  simp [String.data_append] at hd
  cases a; cases b; simp_all

/-- Keys for the same owner and image but different variant names differ. -/
theorem generateUserImageKey_ne_of_size_ne (u g : Nat) {s₁ s₂ : String}
    (h : s₁ ≠ s₂) :
    generateUserImageKey u g s₁ ≠ generateUserImageKey u g s₂ := by
  intro he
  apply h
  unfold generateUserImageKey at he
  have hd := congrArg String.data he
  simp [String.data_append] at hd
  cases s₁; cases s₂; simp_all

/-! ## Scenario fixtures

The §8 scenario of the spec: a 1200×800 JPEG upload with the three
canonical variants, the service's default 15 MiB size limit and the
`setupTestService` configuration. -/

/-- A 12-byte JPEG payload (`FFD8` magic). -/
def jpegData : List Nat := [0xFF, 0xD8, 0, 0, 0, 0, 0, 0, 0, 0, 0, 0]

/-- The `setupTestService` image-type configuration. -/
def stdConfig : ImageConfig :=
  { types := [{ name := "user",
                sizes := [("small", ⟨50, 50⟩), ("medium", ⟨100, 100⟩),
                          ("large", ⟨800, 800⟩)] }] }

/-- Upload environment for a 1200×800 JPEG whose `ProcessImage` oracle
produced `variants` (in Go-map iteration order), with fresh GUID `g` and
current time `now`. -/
def stdEnvV (g now : Nat) (variants : List (String × List Nat)) : UploadEnv :=
  { maxSize := 15728640, config := stdConfig,
    dimsResult := Except.ok (1200, 800),
    variantsResult := Except.ok variants,
    imageGUID := g, now := now }

/-- Specialises `stdEnvV` to the three canonical variants in small/medium/large
iteration order, carrying bodies `d1`/`d2`/`d3`. -/
def stdEnv (g now : Nat) (d1 d2 d3 : List Nat) : UploadEnv :=
  stdEnvV g now [("small", d1), ("medium", d2), ("large", d3)]

/-- The record a successful canonical upload saves. -/
def freshImage (u g now : Nat) : Image :=
  { guid := g, ownerGUID := u, typeName := "user",
    smallURL := getURL (generateUserImageKey u g "small"),
    mediumURL := getURL (generateUserImageKey u g "medium"),
    largeURL := getURL (generateUserImageKey u g "large"),
    createdAt := now, updatedAt := now, contentType := "image/jpeg",
    originalWidth := 1200, originalHeight := 800 }

/-- The collaborator states after a successful canonical upload for owner
`u` with image GUID `g` at time `now` (bodies `d1`/`d2`/`d3`), with a
`saveFail` fault flag `sf` on the repository. -/
def postFreshStores (sf : Bool) (u g now : Nat) (d1 d2 d3 : List Nat) :
    Stores :=
  { repo := { images := [(g, freshImage u g now)],
              byOwner := [((u, "user"), freshImage u g now)],
              saveFail := sf, deleteFail := false },
    s3 := { objects := [(generateUserImageKey u g "large", d3),
                        (generateUserImageKey u g "medium", d2),
                        (generateUserImageKey u g "small", d1)],
            putFailKeys := [], deleteFailKeys := [] } }

/-- The records the metadata store holds for one (owner, type) pair. -/
def ownerImages (r : RepoState) (owner : Nat) (ty : String) : List Image :=
  (r.images.map Prod.snd).filter
    (fun img => decide (img.ownerGUID = owner ∧ img.typeName = ty))

/-! ## Component lemmas for the service workflows -/

theorem keySM (u g : Nat) :
    generateUserImageKey u g "small" ≠ generateUserImageKey u g "medium" :=
  generateUserImageKey_ne_of_size_ne u g (by decide)

theorem keySL (u g : Nat) :
    generateUserImageKey u g "small" ≠ generateUserImageKey u g "large" :=
  generateUserImageKey_ne_of_size_ne u g (by decide)

theorem keyMS (u g : Nat) :
    generateUserImageKey u g "medium" ≠ generateUserImageKey u g "small" :=
  generateUserImageKey_ne_of_size_ne u g (by decide)

theorem keyML (u g : Nat) :
    generateUserImageKey u g "medium" ≠ generateUserImageKey u g "large" :=
  generateUserImageKey_ne_of_size_ne u g (by decide)

theorem keyLS (u g : Nat) :
    generateUserImageKey u g "large" ≠ generateUserImageKey u g "small" :=
  generateUserImageKey_ne_of_size_ne u g (by decide)

theorem keyLM (u g : Nat) :
    generateUserImageKey u g "large" ≠ generateUserImageKey u g "medium" :=
  generateUserImageKey_ne_of_size_ne u g (by decide)

theorem s3Put_preserves_faults (s : S3State) (key : String) (body : List Nat) :
    ((s3Put s key body).2).putFailKeys = s.putFailKeys ∧
    ((s3Put s key body).2).deleteFailKeys = s.deleteFailKeys := by
  by_cases h : key ∈ s.putFailKeys <;> simp [s3Put, h]

theorem s3Delete_preserves_faults (s : S3State) (key : String) :
    ((s3Delete s key).2).putFailKeys = s.putFailKeys ∧
    ((s3Delete s key).2).deleteFailKeys = s.deleteFailKeys := by
  by_cases h : key ∈ s.deleteFailKeys
  · simp [s3Delete, h]
  · cases hg : mapGet s.objects key <;> simp [s3Delete, h, hg]

theorem deleteVariantObjects_preserves_faults (u g : Nat) :
    ∀ (l : List String) (s3 : S3State),
    ((deleteVariantObjects s3 u g l).1).putFailKeys = s3.putFailKeys ∧
    ((deleteVariantObjects s3 u g l).1).deleteFailKeys = s3.deleteFailKeys := by
  intro l
  induction l with
  | nil => intro s3; simp [deleteVariantObjects]
  | cons size rest ih =>
      intro s3
      have h1 := s3Delete_preserves_faults s3 (generateUserImageKey u g size)
      have h2 := ih ((s3Delete s3 (generateUserImageKey u g size)).2)
      simp only [deleteVariantObjects]
      exact ⟨h2.1.trans h1.1, h2.2.trans h1.2⟩

/-- The trace of the deletion loop lists one `Delete` per size, in order,
regardless of individual deletion outcomes. -/
theorem deleteVariantObjects_trace (u g : Nat) :
    ∀ (l : List String) (s3 : S3State),
    (deleteVariantObjects s3 u g l).2
      = l.map (fun size => CallEv.delObj (generateUserImageKey u g size)) := by
  intro l
  induction l with
  | nil => intro s3; simp [deleteVariantObjects]
  | cons size rest ih =>
      intro s3
      simp [deleteVariantObjects, ih]

/-- The internal pre-delete step never changes the object-store fault
lists. -/
theorem deleteUserImage_preserves_faults (st : Stores) (u : Nat) :
    ((deleteUserImage st u).2.1).s3.putFailKeys = st.s3.putFailKeys := by
  unfold deleteUserImage
  cases hg : getImageByOwner st.repo u "user" with
  | none => simp
  | some img =>
      have h := deleteVariantObjects_preserves_faults u img.guid
        ["small", "medium", "large"] st.s3
      cases hd : deleteImage st.repo img.guid <;> simp [hg, hd, h.1]

/-- Every collaborator call of the variant-upload loop is an
`ObjectStore.Put`; the loop issues no deletes and no metadata calls. -/
theorem uploadVariants_trace_puts :
    ∀ (l : List (String × List Nat)) (s3 : S3State) (u g : Nat) (img : Image)
      (ev : CallEv), ev ∈ (uploadVariants s3 u g img l).2.2 →
      ∃ k, ev = CallEv.putObj k := by
  intro l
  induction l with
  | nil => intro s3 u g img ev h; simp [uploadVariants] at h
  | cons v rest ih =>
      intro s3 u g img ev h
      obtain ⟨size, variantData⟩ := v
      rcases hp : s3Put s3 (generateUserImageKey u g size) variantData with
        ⟨res, s3'⟩
      cases res with
      | error e =>
          simp [uploadVariants, hp] at h
          exact ⟨_, h⟩
      | ok url =>
          simp [uploadVariants, hp] at h
          rcases h with h | h
          · exact ⟨_, h⟩
          · exact ih s3' u g _ ev h

/-- Variant-record update of one loop iteration: the URL of `size` is
recorded on the matching canonical field, other names leave the record
unchanged. -/
def applyVariantURL (u g : Nat) (img : Image) (size : String) : Image :=
  if size = "small" then
    { img with smallURL := getURL (generateUserImageKey u g size) }
  else if size = "medium" then
    { img with mediumURL := getURL (generateUserImageKey u g size) }
  else if size = "large" then
    { img with largeURL := getURL (generateUserImageKey u g size) }
  else img

/-- Unfolding equation for one successful loop iteration. -/
theorem uploadVariants_cons_ok (s3 : S3State) (u g : Nat) (img : Image)
    (size : String) (variantData : List Nat)
    (rest : List (String × List Nat))
    (hnm : generateUserImageKey u g size ∉ s3.putFailKeys) :
    uploadVariants s3 u g img ((size, variantData) :: rest)
      = ((uploadVariants
            ⟨mapSet s3.objects (generateUserImageKey u g size) variantData,
             s3.putFailKeys, s3.deleteFailKeys⟩
            u g (applyVariantURL u g img size) rest).1,
         (uploadVariants
            ⟨mapSet s3.objects (generateUserImageKey u g size) variantData,
             s3.putFailKeys, s3.deleteFailKeys⟩
            u g (applyVariantURL u g img size) rest).2.1,
         CallEv.putObj (generateUserImageKey u g size)
           :: (uploadVariants
            ⟨mapSet s3.objects (generateUserImageKey u g size) variantData,
             s3.putFailKeys, s3.deleteFailKeys⟩
            u g (applyVariantURL u g img size) rest).2.2) := by
  simp [uploadVariants, s3Put, hnm, applyVariantURL]

theorem applyVariantURL_guid (u g : Nat) (img : Image) (size : String) :
    (applyVariantURL u g img size).guid = img.guid := by
  by_cases h1 : size = "small" <;> by_cases h2 : size = "medium" <;>
    by_cases h3 : size = "large" <;> simp [applyVariantURL, h1, h2, h3]

/-- With no injected `Put` failures the loop succeeds: the result is some
record with the same GUID, the trace is exactly one `Put` per variant in
list order, and the resulting store keeps the empty fault lists. -/
theorem uploadVariants_ok_of_noPutFail :
    ∀ (l : List (String × List Nat)) (s3 : S3State)
      (hp : s3.putFailKeys = []) (u g : Nat) (img : Image),
    (uploadVariants s3 u g img l).2.2
        = l.map (fun v => CallEv.putObj (generateUserImageKey u g v.1)) ∧
    ((uploadVariants s3 u g img l).2.1).putFailKeys = [] ∧
    ∃ img', (uploadVariants s3 u g img l).1 = Except.ok img' ∧
      img'.guid = img.guid := by
  intro l
  induction l with
  | nil =>
      intro s3 hp u g img
      exact ⟨rfl, hp, img, rfl, rfl⟩
  | cons v rest ih =>
      intro s3 hp u g img
      obtain ⟨size, variantData⟩ := v
      have hnm : generateUserImageKey u g size ∉ s3.putFailKeys := by
        simp [hp]
      have hstep := uploadVariants_cons_ok s3 u g img size variantData rest hnm
      have hrest := ih
        ⟨mapSet s3.objects (generateUserImageKey u g size) variantData,
         s3.putFailKeys, s3.deleteFailKeys⟩ hp u g
        (applyVariantURL u g img size)
      obtain ⟨htr, hpf, img', hok, hguid⟩ := hrest
      refine ⟨?_, ?_, img', ?_,
        hguid.trans (applyVariantURL_guid u g img size)⟩
      · rw [hstep]
        simp [htr]
      · rw [hstep]
        exact hpf
      · rw [hstep]
        exact hok

/-- Execution of the upload loop on the canonical three variants from a
clean object store. -/
theorem uploadVariants3_spec (u g : Nat) (img : Image) (d1 d2 d3 : List Nat) :
    uploadVariants ⟨[], [], []⟩ u g img
        [("small", d1), ("medium", d2), ("large", d3)]
      = (Except.ok { img with
            smallURL := getURL (generateUserImageKey u g "small"),
            mediumURL := getURL (generateUserImageKey u g "medium"),
            largeURL := getURL (generateUserImageKey u g "large") },
         ⟨[(generateUserImageKey u g "large", d3),
           (generateUserImageKey u g "medium", d2),
           (generateUserImageKey u g "small", d1)], [], []⟩,
         [CallEv.putObj (generateUserImageKey u g "small"),
          CallEv.putObj (generateUserImageKey u g "medium"),
          CallEv.putObj (generateUserImageKey u g "large")]) := by
  simp [uploadVariants, s3Put, mapSet, mapDel,
    keySM u g, keySL u g, keyMS u g, keyML u g, keyLS u g, keyLM u g]

/-- Execution of the deletion loop on the three objects of a previous
canonical upload: all three are removed. -/
theorem deleteVariantObjects3_spec (u g : Nat) (d1 d2 d3 : List Nat) :
    deleteVariantObjects
        ⟨[(generateUserImageKey u g "large", d3),
          (generateUserImageKey u g "medium", d2),
          (generateUserImageKey u g "small", d1)], [], []⟩ u g
        ["small", "medium", "large"]
      = (⟨[], [], []⟩,
         [CallEv.delObj (generateUserImageKey u g "small"),
          CallEv.delObj (generateUserImageKey u g "medium"),
          CallEv.delObj (generateUserImageKey u g "large")]) := by
  simp [deleteVariantObjects, s3Delete, mapGet, mapDel,
    keySM u g, keySL u g, keyMS u g, keyML u g, keyLS u g, keyLM u g]

/-- With no record for the owner, `DeleteUserImage` returns `NotFound`
without touching any collaborator. -/
theorem deleteUserImage_noRecord (st : Stores) (u : Nat)
    (h : getImageByOwner st.repo u "user" = none) :
    deleteUserImage st u = (Except.error SvcErr.notFound, st, []) := by
  simp [deleteUserImage, h]

/-- Execution of `DeleteUserImage` on the state left by a successful
canonical upload: the three objects and the record are removed, in that
order. -/
theorem deleteUserImage_postFresh (sf : Bool) (u g now : Nat)
    (d1 d2 d3 : List Nat) :
    deleteUserImage (postFreshStores sf u g now d1 d2 d3) u
      = (Except.ok (),
         { repo := ⟨[], [], sf, false⟩, s3 := ⟨[], [], []⟩ },
         [CallEv.delObj (generateUserImageKey u g "small"),
          CallEv.delObj (generateUserImageKey u g "medium"),
          CallEv.delObj (generateUserImageKey u g "large"),
          CallEv.repoDel g]) := by
  have hget : getImageByOwner (postFreshStores sf u g now d1 d2 d3).repo u
      "user" = some (freshImage u g now) := by
    simp [postFreshStores, getImageByOwner, mapGet]
  have hdel : deleteImage (postFreshStores sf u g now d1 d2 d3).repo
        (freshImage u g now).guid
      = Except.ok ⟨[], [], sf, false⟩ := by
    simp [postFreshStores, deleteImage, mapGet, mapDel, freshImage]
  have hs3 : (postFreshStores sf u g now d1 d2 d3).s3
      = ⟨[(generateUserImageKey u g "large", d3),
          (generateUserImageKey u g "medium", d2),
          (generateUserImageKey u g "small", d1)], [], []⟩ := rfl
  have hgd : (freshImage u g now).guid = g := rfl
  rw [hgd] at hdel
  simp only [deleteUserImage, hget, hgd, hs3]
  rw [deleteVariantObjects3_spec]
  simp [hdel]

/-- Execution of a first canonical upload from empty stores: the three
variants are stored, the record is saved, and the result reports the
fresh record. -/
theorem upload_fresh_spec (u g now : Nat) (d1 d2 d3 : List Nat)
    (hu : u ≠ 0) (hg : g ≠ 0) :
    uploadUserImage (stdEnv g now d1 d2 d3) emptyStores u jpegData
      = { result := Except.ok (toUserImage (freshImage u g now)),
          stores := postFreshStores false u g now d1 d2 d3,
          preTrace := [],
          mainTrace := [CallEv.putObj (generateUserImageKey u g "small"),
                        CallEv.putObj (generateUserImageKey u g "medium"),
                        CallEv.putObj (generateUserImageKey u g "large"),
                        CallEv.repoSave g] } := by
  have hpre : deleteUserImage emptyStores u
      = (Except.error SvcErr.notFound, emptyStores, []) :=
    deleteUserImage_noRecord emptyStores u rfl
  simp only [emptyStores] at hpre
  simp [uploadUserImage, validateAndRender, mkUploadImage, stdEnv, stdEnvV, hpre, jpegData,
    detectImageFormat, isJpegSig, stdConfig, getImageTypeByName,
    uploadVariants3_spec, saveImage, emptyStores, hu, hg, freshImage,
    newImage, toUserImage, postFreshStores, mapSet, mapDel]

/-- Execution of a canonical replacing upload: the previous upload's
objects and record are deleted first, then the new variants are stored
and the new record saved. -/
theorem upload_replace_spec (u g1 g2 now1 now2 : Nat)
    (d1 d2 d3 d4 d5 d6 : List Nat) (hu : u ≠ 0) (hg2 : g2 ≠ 0) :
    uploadUserImage (stdEnv g2 now2 d4 d5 d6)
        (postFreshStores false u g1 now1 d1 d2 d3) u jpegData
      = { result := Except.ok (toUserImage (freshImage u g2 now2)),
          stores := postFreshStores false u g2 now2 d4 d5 d6,
          preTrace := [CallEv.delObj (generateUserImageKey u g1 "small"),
                       CallEv.delObj (generateUserImageKey u g1 "medium"),
                       CallEv.delObj (generateUserImageKey u g1 "large"),
                       CallEv.repoDel g1],
          mainTrace := [CallEv.putObj (generateUserImageKey u g2 "small"),
                        CallEv.putObj (generateUserImageKey u g2 "medium"),
                        CallEv.putObj (generateUserImageKey u g2 "large"),
                        CallEv.repoSave g2] } := by
  have hpre := deleteUserImage_postFresh false u g1 now1 d1 d2 d3
  simp only [postFreshStores, freshImage] at hpre
  simp [uploadUserImage, validateAndRender, mkUploadImage, stdEnv, stdEnvV, hpre, jpegData,
    detectImageFormat, isJpegSig, stdConfig, getImageTypeByName,
    uploadVariants3_spec, saveImage, hu, hg2, freshImage, newImage,
    toUserImage, postFreshStores, mapSet, mapDel]

/-- Execution of a canonical replacing upload whose final metadata save
fails: the previous record and objects are already gone, the new objects
stay, and no record exists afterwards. -/
theorem upload_replace_savefail_spec (u g1 g2 now1 now2 : Nat)
    (d1 d2 d3 d4 d5 d6 : List Nat) :
    uploadUserImage (stdEnv g2 now2 d4 d5 d6)
        (postFreshStores true u g1 now1 d1 d2 d3) u jpegData
      = { result := Except.error SvcErr.saveFailed,
          stores := { repo := ⟨[], [], true, false⟩,
                      s3 := ⟨[(generateUserImageKey u g2 "large", d6),
                              (generateUserImageKey u g2 "medium", d5),
                              (generateUserImageKey u g2 "small", d4)],
                             [], []⟩ },
          preTrace := [CallEv.delObj (generateUserImageKey u g1 "small"),
                       CallEv.delObj (generateUserImageKey u g1 "medium"),
                       CallEv.delObj (generateUserImageKey u g1 "large"),
                       CallEv.repoDel g1],
          mainTrace := [CallEv.putObj (generateUserImageKey u g2 "small"),
                        CallEv.putObj (generateUserImageKey u g2 "medium"),
                        CallEv.putObj (generateUserImageKey u g2 "large"),
                        CallEv.repoSave g2] } := by
  have hpre := deleteUserImage_postFresh true u g1 now1 d1 d2 d3
  simp only [postFreshStores, freshImage] at hpre
  simp [uploadUserImage, validateAndRender, mkUploadImage, stdEnv, stdEnvV, hpre, jpegData,
    detectImageFormat, isJpegSig, stdConfig, getImageTypeByName,
    uploadVariants3_spec, saveImage, freshImage, newImage, postFreshStores]

/-! ## Claim C5 — `CalculateResizeDimensions` -/

/-- Claim C5 counterexample.  The claim asserts that with only the width
constrained the height is `round(targetWidth × origH / origW)` with
round-half-away-from-zero, and that the §8 scenario's medium spec
`{w:100,h:0}` on a 1200×800 original yields (100, 67).  The code converts
the `float64` product with Go's `int(...)`, which truncates toward zero:
`CalculateResizeDimensions(1200, 800, 100, 0)` computes
`int(100 * fl(800/1200)) = int(66.66666666666666) = 66`, so the result is
(100, 66), not (100, 67). -/
theorem calculateResizeDimensions_medium_is_66 :
    calculateResizeDimensions 1200 800 100 0 = (100, 66) ∧
    calculateResizeDimensions 1200 800 100 0 ≠ (100, 67) := by
  constructor <;> decide

/-- Claim C5 (amended): for positive original dimensions,
`CalculateResizeDimensions` returns the targets unchanged when both are
positive and the original dimensions when both targets are zero; when
exactly one target is positive, the derived dimension is Go's
`int(float64(target) * aspectRatio)` — the binary64 product of the target
with the binary64 aspect ratio, truncated toward zero — not
round-half-away-from-zero on the exact ratio.  On the §8 scenario the
outputs are (50, 33), (100, 66) — not (100, 67) — and (800, 800); the
binary64 rounding also makes the result deviate from the exact rational
ratio where that ratio is near an integer: (49, 1, 49, 0) yields height 0
(`49 * fl(1/49) < 1`), and (1, 1, 2^53+1, 0) yields 2^53 (the target no
longer fits in 53 bits). -/
theorem calculateResizeDimensions_truncates (ow oh tw th : Int)
    (how : 0 < ow) (hoh : 0 < oh) :
    (0 < tw → 0 < th →
      calculateResizeDimensions ow oh tw th = (tw, th)) ∧
    (calculateResizeDimensions ow oh 0 0 = (ow, oh)) ∧
    (0 < tw →
      calculateResizeDimensions ow oh tw 0
        = (tw, fracTrunc (fl64 (fracMul (fl64 (fracOfInt tw))
            (fl64 (fracDiv (fl64 (fracOfInt oh)) (fl64 (fracOfInt ow)))))))) ∧
    (0 < th →
      calculateResizeDimensions ow oh 0 th
        = (fracTrunc (fl64 (fracMul (fl64 (fracOfInt th))
            (fl64 (fracDiv (fl64 (fracOfInt ow)) (fl64 (fracOfInt oh)))))),
           th)) ∧
    calculateResizeDimensions 1200 800 50 0 = (50, 33) ∧
    calculateResizeDimensions 1200 800 100 0 = (100, 66) ∧
    calculateResizeDimensions 1200 800 800 800 = (800, 800) ∧
    calculateResizeDimensions 49 1 49 0 = (49, 0) ∧
    calculateResizeDimensions 1 1 (2 ^ 53 + 1) 0 = (2 ^ 53 + 1, 2 ^ 53) := by
  refine ⟨?_, ?_, ?_, ?_, by decide, by decide, by decide, by decide,
    by decide⟩
  · intro htw hth
    simp [calculateResizeDimensions, htw, hth]
  · simp [calculateResizeDimensions]
  · intro htw
    simp [calculateResizeDimensions, htw]
  · intro hth
    simp [calculateResizeDimensions, hth]

/-- Claim C5 witness: the amended theorem applied to the 1200×800 original
with the scenario's small spec. -/
theorem calculateResizeDimensions_truncates_witness :
    calculateResizeDimensions 1200 800 50 0 = (50, 33) :=
  (calculateResizeDimensions_truncates 1200 800 50 0 (by decide)
    (by decide)).2.2.2.2.1

/-! ## Claim C1 — compensation on `Put` failure -/

/-- Validation failures never carry the storage or metadata error codes. -/
theorem validateAndRender_error_ne (env : UploadEnv) (imageData : List Nat)
    (e : SvcErr) (h : validateAndRender env imageData = Except.error e) :
    e ≠ SvcErr.storageFailed ∧ e ≠ SvcErr.saveFailed := by
  unfold validateAndRender at h
  split at h
  · cases h; exact ⟨by decide, by decide⟩
  · split at h
    · cases h; exact ⟨by decide, by decide⟩
    · split at h
      · cases h; exact ⟨by decide, by decide⟩
      · split at h
        · cases h; exact ⟨by decide, by decide⟩
        · split at h
          · cases h; exact ⟨by decide, by decide⟩
          · split at h
            · cases h; exact ⟨by decide, by decide⟩
            · split at h
              · cases h; exact ⟨by decide, by decide⟩
              · cases h

/-- Stores that make the canonical upload's `Put` of the medium variant
fail (injected object-store fault), with no pre-existing record. -/
def cexPutFailStores : Stores :=
  { repo := ⟨[], [], false, false⟩,
    s3 := ⟨[], [generateUserImageKey 1 7 "medium"], []⟩ }

/-- Claim C1 counterexample.  The claim says that when a variant `Put`
fails after earlier variants were written, the orchestrator deletes every
key it wrote before returning `StorageFailed`.  In the run below the
small variant is written, the medium `Put` fails, and the full
collaborator trace of the request is just the two `Put` calls: no
`ObjectStore.Delete` is ever issued, and the small object is still in the
store when the error is returned. -/
theorem upload_putFail_no_compensation_cex :
    (uploadUserImage (stdEnv 7 10 [1] [2] [3]) cexPutFailStores 1
        jpegData).result = Except.error SvcErr.storageFailed ∧
    (uploadUserImage (stdEnv 7 10 [1] [2] [3]) cexPutFailStores 1
        jpegData).trace
      = [CallEv.putObj (generateUserImageKey 1 7 "small"),
         CallEv.putObj (generateUserImageKey 1 7 "medium")] ∧
    mapGet (uploadUserImage (stdEnv 7 10 [1] [2] [3]) cexPutFailStores 1
        jpegData).stores.s3.objects (generateUserImageKey 1 7 "small")
      = some [1] := by
  refine ⟨?_, ?_, ?_⟩ <;> decide

/-- Claim C1 (amended): when `UploadUserImage` fails with `StorageFailed`,
it returns immediately: every collaborator call made after the internal
pre-upload deletion step is an `ObjectStore.Put` (so no compensating
`Delete` is issued for the keys already written and no metadata save
happens), and the metadata store is left exactly as the pre-upload
deletion step left it — in particular no new `ImageRecord` is created,
but an existing record for the owner has already been deleted by that
earlier step rather than being left unchanged. -/
theorem uploadUserImage_storageFailed_behaviour (env : UploadEnv)
    (st : Stores) (u : Nat) (imageData : List Nat)
    (h : (uploadUserImage env st u imageData).result
      = Except.error SvcErr.storageFailed) :
    (∀ ev ∈ (uploadUserImage env st u imageData).mainTrace,
      ∃ k, ev = CallEv.putObj k) ∧
    (uploadUserImage env st u imageData).stores.repo
      = (deleteUserImage st u).2.1.repo := by
  cases hv : validateAndRender env imageData with
  | error e =>
      have hne := (validateAndRender_error_ne env imageData e hv).1
      simp only [uploadUserImage, hv] at h
      exact absurd (Except.error.inj h) hne
  | ok quad =>
      obtain ⟨contentType, width, height, variants⟩ := quad
      rcases hUV : uploadVariants (deleteUserImage st u).2.1.s3 u
          env.imageGUID
          (mkUploadImage u env.imageGUID env.now contentType width height)
          variants with ⟨res, s3', tr⟩
      cases res with
      | error e =>
          constructor
          · intro ev hev
            simp only [uploadUserImage, hv, hUV] at hev
            exact uploadVariants_trace_puts variants
              (deleteUserImage st u).2.1.s3 u env.imageGUID _ ev
              (by rw [hUV]; exact hev)
          · simp only [uploadUserImage, hv, hUV]
      | ok image1 =>
          rcases hsv : saveImage (deleteUserImage st u).2.1.repo image1
              env.now with ⟨sres, r'⟩
          cases sres with
          | error e' =>
              simp only [uploadUserImage, hv, hUV, hsv] at h
              cases h
          | ok image2 =>
              simp only [uploadUserImage, hv, hUV, hsv] at h
              cases h

/-- Claim C1 witness: the amended theorem applied to the counterexample
run, evaluated on the concrete state. -/
theorem uploadUserImage_storageFailed_behaviour_witness :
    (uploadUserImage (stdEnv 7 10 [1] [2] [3]) cexPutFailStores 1
        jpegData).stores.repo
      = (deleteUserImage cexPutFailStores 1).2.1.repo :=
  (uploadUserImage_storageFailed_behaviour (stdEnv 7 10 [1] [2] [3])
    cexPutFailStores 1 jpegData (by decide)).2

/-! ## Claim C2 — metadata save failure -/

/-- Claim C2 counterexample.  The claim says that when all variant `Put`s
succeed but the metadata save fails, the previously-existing record is
unchanged and still retrievable, and deletion of the new variants is
attempted.  In the run below owner 1 has a full record from a previous
upload (GUID 2) and the repository save is failing: the upload returns
the save error, but a retrieval afterwards returns `NotFound` — the old
record was already deleted by the upload itself — and the newly-uploaded
small object is still in the object store (no deletion attempted). -/
theorem upload_saveFail_previous_record_gone_cex :
    (uploadUserImage (stdEnv 9 20 [4] [5] [6])
        (postFreshStores true 1 2 10 [1] [2] [3]) 1 jpegData).result
      = Except.error SvcErr.saveFailed ∧
    getUserImage (uploadUserImage (stdEnv 9 20 [4] [5] [6])
        (postFreshStores true 1 2 10 [1] [2] [3]) 1 jpegData).stores 1
      = Except.error SvcErr.notFound ∧
    mapGet (uploadUserImage (stdEnv 9 20 [4] [5] [6])
        (postFreshStores true 1 2 10 [1] [2] [3]) 1 jpegData).stores.s3.objects
        (generateUserImageKey 1 9 "small")
      = some [4] := by
  refine ⟨?_, ?_, ?_⟩ <;> decide

/-- Claim C2 (amended): when the canonical replacing upload's metadata
save fails after all three `Put`s succeed, the upload returns the save
error, but the previously-existing record is not preserved — it was
already deleted by the upload's internal pre-delete step, so retrieval
for the owner afterwards returns `NotFound` — and the newly-uploaded
variants are not deleted: they are exactly what the object store holds,
and the request's post-deletion trace contains only the three `Put`s and
the failed save, no compensating `Delete`. -/
theorem uploadUserImage_saveFail_behaviour (u g1 g2 now1 now2 : Nat)
    (d1 d2 d3 d4 d5 d6 : List Nat) :
    (uploadUserImage (stdEnv g2 now2 d4 d5 d6)
        (postFreshStores true u g1 now1 d1 d2 d3) u jpegData).result
      = Except.error SvcErr.saveFailed ∧
    getUserImage (uploadUserImage (stdEnv g2 now2 d4 d5 d6)
        (postFreshStores true u g1 now1 d1 d2 d3) u jpegData).stores u
      = Except.error SvcErr.notFound ∧
    (uploadUserImage (stdEnv g2 now2 d4 d5 d6)
        (postFreshStores true u g1 now1 d1 d2 d3) u jpegData).stores.s3.objects
      = [(generateUserImageKey u g2 "large", d6),
         (generateUserImageKey u g2 "medium", d5),
         (generateUserImageKey u g2 "small", d4)] ∧
    (uploadUserImage (stdEnv g2 now2 d4 d5 d6)
        (postFreshStores true u g1 now1 d1 d2 d3) u jpegData).mainTrace
      = [CallEv.putObj (generateUserImageKey u g2 "small"),
         CallEv.putObj (generateUserImageKey u g2 "medium"),
         CallEv.putObj (generateUserImageKey u g2 "large"),
         CallEv.repoSave g2] := by
  rw [upload_replace_savefail_spec u g1 g2 now1 now2 d1 d2 d3 d4 d5 d6]
  refine ⟨rfl, ?_, rfl, rfl⟩
  simp [getUserImage, getImageByOwner, mapGet]

/-! ## Claim C3 — supersede versus delete-first -/

/-- Claim C3 counterexample.  The claim says the existing metadata row is
superseded, never deleted first, that no intermediate step exposes
`NotFound`, and that the old objects are deleted only after the new
record is saved.  The concrete replacing upload below shows the exact
opposite order: the full collaborator trace starts with the three
`Delete`s of the old variant objects and the metadata-row deletion
(`repoDel 2`), all strictly before any `Put` and before the save
(`repoSave 9`); and retrieval against the intermediate state the
pre-delete step leaves behind returns `NotFound`. -/
theorem upload_replace_old_deleted_first_cex :
    (uploadUserImage (stdEnv 9 20 [4] [5] [6])
        (postFreshStores false 1 2 10 [1] [2] [3]) 1 jpegData).trace
      = [CallEv.delObj (generateUserImageKey 1 2 "small"),
         CallEv.delObj (generateUserImageKey 1 2 "medium"),
         CallEv.delObj (generateUserImageKey 1 2 "large"),
         CallEv.repoDel 2,
         CallEv.putObj (generateUserImageKey 1 9 "small"),
         CallEv.putObj (generateUserImageKey 1 9 "medium"),
         CallEv.putObj (generateUserImageKey 1 9 "large"),
         CallEv.repoSave 9] ∧
    getUserImage
        (deleteUserImage (postFreshStores false 1 2 10 [1] [2] [3]) 1).2.1 1
      = Except.error SvcErr.notFound := by
  constructor <;> decide

/-- Claim C3 (amended): during a canonical replacing upload the existing
record is deleted first, not superseded — the pre-upload step removes the
old variant objects and the old metadata row before any new `Put` and
before the new save (the request's trace is the old-object deletes and
row deletion followed by the new puts and save), and between that
deletion and the new save there is a window in which retrieval for the
owner returns `NotFound`. -/
theorem uploadUserImage_replace_behaviour (u g1 g2 now1 now2 : Nat)
    (d1 d2 d3 d4 d5 d6 : List Nat) (hu : u ≠ 0) (hg2 : g2 ≠ 0) :
    (uploadUserImage (stdEnv g2 now2 d4 d5 d6)
        (postFreshStores false u g1 now1 d1 d2 d3) u jpegData).preTrace
      = [CallEv.delObj (generateUserImageKey u g1 "small"),
         CallEv.delObj (generateUserImageKey u g1 "medium"),
         CallEv.delObj (generateUserImageKey u g1 "large"),
         CallEv.repoDel g1] ∧
    (uploadUserImage (stdEnv g2 now2 d4 d5 d6)
        (postFreshStores false u g1 now1 d1 d2 d3) u jpegData).mainTrace
      = [CallEv.putObj (generateUserImageKey u g2 "small"),
         CallEv.putObj (generateUserImageKey u g2 "medium"),
         CallEv.putObj (generateUserImageKey u g2 "large"),
         CallEv.repoSave g2] ∧
    (uploadUserImage (stdEnv g2 now2 d4 d5 d6)
        (postFreshStores false u g1 now1 d1 d2 d3) u jpegData).result
      = Except.ok (toUserImage (freshImage u g2 now2)) ∧
    getUserImage
        (deleteUserImage (postFreshStores false u g1 now1 d1 d2 d3) u).2.1 u
      = Except.error SvcErr.notFound := by
  rw [upload_replace_spec u g1 g2 now1 now2 d1 d2 d3 d4 d5 d6 hu hg2,
    deleteUserImage_postFresh false u g1 now1 d1 d2 d3]
  refine ⟨rfl, rfl, rfl, ?_⟩
  simp [getUserImage, getImageByOwner, mapGet]

/-- Claim C3 witness: the amended theorem at the counterexample's concrete
inputs. -/
theorem uploadUserImage_replace_behaviour_witness :
    (uploadUserImage (stdEnv 9 20 [4] [5] [6])
        (postFreshStores false 1 2 10 [1] [2] [3]) 1 jpegData).preTrace
      = [CallEv.delObj (generateUserImageKey 1 2 "small"),
         CallEv.delObj (generateUserImageKey 1 2 "medium"),
         CallEv.delObj (generateUserImageKey 1 2 "large"),
         CallEv.repoDel 2] :=
  (uploadUserImage_replace_behaviour 1 2 9 10 20 [1] [2] [3] [4] [5] [6]
    (by decide) (by decide)).1

/-! ## Claim C4 — second upload for the same owner -/

/-- Claim C4 counterexample.  The claim says the record left by a second
upload keeps the `createdAt` assigned by the first upload.  Below, the
first upload runs at time 10 and the second at time 20; after the second
upload the single record for the owner has `createdAt` 20, not the first
upload's 10: the record is replaced wholesale and `createdAt` is not
preserved. -/
theorem upload_twice_createdAt_refreshed_cex :
    (mapGet (uploadUserImage (stdEnv 9 20 [4] [5] [6])
        (uploadUserImage (stdEnv 7 10 [1] [2] [3]) emptyStores 1
          jpegData).stores 1 jpegData).stores.repo.byOwner
        (1, "user")).map Image.createdAt = some 20 ∧
    (mapGet (uploadUserImage (stdEnv 7 10 [1] [2] [3]) emptyStores 1
        jpegData).stores.repo.byOwner (1, "user")).map Image.createdAt
      = some 10 ∧
    (20 : Nat) ≠ 10 := by
  refine ⟨?_, ?_, ?_⟩ <;> decide

/-- Claim C4 (amended): after a first and then a second successful
canonical upload for the same owner, exactly one `ImageRecord` exists for
the (owner, "user") pair; its three variant URLs point at the objects
written by the second upload (which are exactly the objects the store
holds), and its `updatedAt` is the second upload's time, strictly later
than the first; but `createdAt` is not the first upload's — it equals the
second upload's time, because the first record is deleted and a fresh one
inserted. -/
theorem upload_twice_spec (u g1 g2 now1 now2 : Nat)
    (d1 d2 d3 d4 d5 d6 : List Nat) (hu : u ≠ 0) (hg1 : g1 ≠ 0)
    (hg2 : g2 ≠ 0) (hnow : now1 < now2) :
    ownerImages (uploadUserImage (stdEnv g2 now2 d4 d5 d6)
        (uploadUserImage (stdEnv g1 now1 d1 d2 d3) emptyStores u
          jpegData).stores u jpegData).stores.repo u "user"
      = [freshImage u g2 now2] ∧
    (freshImage u g2 now2).createdAt = now2 ∧
    (freshImage u g2 now2).createdAt ≠ now1 ∧
    (freshImage u g2 now2).updatedAt = now2 ∧
    now1 < (freshImage u g2 now2).updatedAt ∧
    (freshImage u g2 now2).smallURL
      = getURL (generateUserImageKey u g2 "small") ∧
    (freshImage u g2 now2).mediumURL
      = getURL (generateUserImageKey u g2 "medium") ∧
    (freshImage u g2 now2).largeURL
      = getURL (generateUserImageKey u g2 "large") ∧
    (uploadUserImage (stdEnv g2 now2 d4 d5 d6)
        (uploadUserImage (stdEnv g1 now1 d1 d2 d3) emptyStores u
          jpegData).stores u jpegData).stores.s3.objects
      = [(generateUserImageKey u g2 "large", d6),
         (generateUserImageKey u g2 "medium", d5),
         (generateUserImageKey u g2 "small", d4)] := by
  have hst : (uploadUserImage (stdEnv g1 now1 d1 d2 d3) emptyStores u
      jpegData).stores = postFreshStores false u g1 now1 d1 d2 d3 := by
    rw [upload_fresh_spec u g1 now1 d1 d2 d3 hu hg1]
  rw [hst, upload_replace_spec u g1 g2 now1 now2 d1 d2 d3 d4 d5 d6 hu hg2]
  refine ⟨?_, rfl, by simp only [freshImage]; omega, rfl, hnow, rfl, rfl,
    rfl, rfl⟩
  simp [ownerImages, postFreshStores, freshImage]

/-- Claim C4 witness: the amended theorem at the counterexample's concrete
inputs. -/
theorem upload_twice_spec_witness :
    ownerImages (uploadUserImage (stdEnv 9 20 [4] [5] [6])
        (uploadUserImage (stdEnv 7 10 [1] [2] [3]) emptyStores 1
          jpegData).stores 1 jpegData).stores.repo 1 "user"
      = [freshImage 1 9 20] :=
  (upload_twice_spec 1 7 9 10 20 [1] [2] [3] [4] [5] [6]
    (by decide) (by decide) (by decide) (by decide)).1

/-! ## Claim C6 — `DeleteUserImage` contract -/

/-- Claim C6: with no record for the owner, `DeleteUserImage` returns
`NotFound` with zero `ObjectStore` calls (and an unchanged state); with a
record, the collaborator trace is exactly the three variant-key `Delete`
attempts (small, medium, large — issued regardless of individual
deletion outcomes) followed last by the metadata-row deletion, and the
call errors if and only if that metadata-row deletion fails. -/
theorem deleteUserImage_contract (st : Stores) (u : Nat) :
    (getImageByOwner st.repo u "user" = none →
      deleteUserImage st u = (Except.error SvcErr.notFound, st, [])) ∧
    (∀ img, getImageByOwner st.repo u "user" = some img →
      (deleteUserImage st u).2.2
        = [CallEv.delObj (generateUserImageKey u img.guid "small"),
           CallEv.delObj (generateUserImageKey u img.guid "medium"),
           CallEv.delObj (generateUserImageKey u img.guid "large"),
           CallEv.repoDel img.guid] ∧
      ((deleteUserImage st u).1 = Except.error SvcErr.repoError
        ↔ deleteImage st.repo img.guid = Except.error ()) ∧
      ((deleteUserImage st u).1 = Except.ok ()
        ↔ deleteImage st.repo img.guid ≠ Except.error ())) := by
  constructor
  · intro h
    exact deleteUserImage_noRecord st u h
  · intro img hg
    have htr := deleteVariantObjects_trace u img.guid
      ["small", "medium", "large"] st.s3
    cases hd : deleteImage st.repo img.guid with
    | error e => simp [deleteUserImage, hg, hd, htr]
    | ok r' => simp [deleteUserImage, hg, hd, htr]

/-- Claim C6 witness: the contract applied to an owner without a record
(zero calls, `NotFound`) and to the state after a canonical upload (three
object deletes then the row deletion). -/
theorem deleteUserImage_contract_witness :
    deleteUserImage emptyStores 5
      = (Except.error SvcErr.notFound, emptyStores, []) ∧
    (deleteUserImage (postFreshStores false 1 2 10 [1] [2] [3]) 1).2.2
      = [CallEv.delObj (generateUserImageKey 1 2 "small"),
         CallEv.delObj (generateUserImageKey 1 2 "medium"),
         CallEv.delObj (generateUserImageKey 1 2 "large"),
         CallEv.repoDel 2] :=
  ⟨(deleteUserImage_contract emptyStores 5).1 (by decide),
   ((deleteUserImage_contract (postFreshStores false 1 2 10 [1] [2] [3])
      1).2 (freshImage 1 2 10) (by decide)).1⟩

/-! ## Claim C10 — `ValidateImageAccess` -/

/-- Claim C10: `ValidateImageAccess` never modifies the collaborator
state; it succeeds exactly when a record with the given image GUID exists
and is owned by the given user GUID; a missing record yields `NotFound`
and a record owned by someone else yields `Unauthorized`. -/
theorem validateImageAccess_contract (st : Stores) (u g : Nat) :
    (validateImageAccess st u g).2 = st ∧
    ((validateImageAccess st u g).1 = Except.ok ()
      ↔ ∃ img, getImageByID st.repo g = some img ∧ img.ownerGUID = u) ∧
    (getImageByID st.repo g = none →
      (validateImageAccess st u g).1 = Except.error SvcErr.notFound) ∧
    (∀ img, getImageByID st.repo g = some img → img.ownerGUID ≠ u →
      (validateImageAccess st u g).1 = Except.error SvcErr.unauthorized) := by
  cases hid : getImageByID st.repo g with
  | none => simp [validateImageAccess, hid]
  | some img =>
      by_cases ho : img.ownerGUID = u
      · simp [validateImageAccess, hid, ho]
      · simp [validateImageAccess, hid, ho]

/-- Claim C10 witness: the contract applied to the record's owner, to a
different user, and to a missing image GUID. -/
theorem validateImageAccess_contract_witness :
    (validateImageAccess (postFreshStores false 1 2 10 [1] [2] [3]) 1 2).1
      = Except.ok () ∧
    (validateImageAccess (postFreshStores false 1 2 10 [1] [2] [3]) 3 2).1
      = Except.error SvcErr.unauthorized ∧
    (validateImageAccess emptyStores 1 9).1
      = Except.error SvcErr.notFound :=
  ⟨(validateImageAccess_contract (postFreshStores false 1 2 10 [1] [2] [3])
      1 2).2.1.mpr ⟨freshImage 1 2 10, by decide, by decide⟩,
   (validateImageAccess_contract (postFreshStores false 1 2 10 [1] [2] [3])
      3 2).2.2.2 (freshImage 1 2 10) (by decide) (by decide),
   (validateImageAccess_contract emptyStores 1 9).2.2.1 (by decide)⟩

/-! ## Claim C8 — determinism of the variant upload order -/

/-- Validation of the canonical JPEG payload succeeds for any rendered
variant list. -/
theorem validateAndRender_stdEnvV (g now : Nat)
    (variants : List (String × List Nat)) :
    validateAndRender (stdEnvV g now variants) jpegData
      = Except.ok ("image/jpeg", 1200, 800, variants) := rfl

/-- Execution shape of a no-put-failure canonical-payload upload: the
calls after the pre-delete step are exactly one `Put` per variant, in the
iteration order handed over by `ProcessImage`'s map, followed by the
metadata save; the pre-delete step itself does not depend on the variant
order. -/
theorem uploadUserImage_mainTrace_noPutFail (st : Stores) (u g now : Nat)
    (variants : List (String × List Nat)) (hp : st.s3.putFailKeys = []) :
    (uploadUserImage (stdEnvV g now variants) st u jpegData).mainTrace
      = variants.map (fun v => CallEv.putObj (generateUserImageKey u g v.1))
        ++ [CallEv.repoSave g] ∧
    (uploadUserImage (stdEnvV g now variants) st u jpegData).preTrace
      = (deleteUserImage st u).2.2 := by
  have hp1 : ((deleteUserImage st u).2.1).s3.putFailKeys = [] :=
    (deleteUserImage_preserves_faults st u).trans hp
  obtain ⟨htr, hpf, img', hok, hguid⟩ :=
    uploadVariants_ok_of_noPutFail variants ((deleteUserImage st u).2.1).s3
      hp1 u g (mkUploadImage u g now "image/jpeg" 1200 800)
  rcases hUV : uploadVariants ((deleteUserImage st u).2.1).s3 u g
      (mkUploadImage u g now "image/jpeg" 1200 800) variants
    with ⟨res, s3', tr⟩
  rw [hUV] at htr hok
  have htr2 : tr
      = variants.map (fun v => CallEv.putObj (generateUserImageKey u g v.1))
    := htr
  have hok2 : res = Except.ok img' := hok
  subst htr2
  subst hok2
  have hv := validateAndRender_stdEnvV g now variants
  have himgG : (stdEnvV g now variants).imageGUID = g := rfl
  have hnowE : (stdEnvV g now variants).now = now := rfl
  have hguid2 : img'.guid = g := hguid
  rcases hsv : saveImage ((deleteUserImage st u).2.1).repo img' now
    with ⟨sres, r'⟩
  cases sres with
  | error e =>
      constructor <;>
        simp [uploadUserImage, hv, himgG, hnowE, hUV, hsv, hguid2]
  | ok image2 =>
      constructor <;>
        simp [uploadUserImage, hv, himgG, hnowE, hUV, hsv, hguid2]

/-- Claim C8 counterexample.  The variant map built by `ProcessImage` is a
Go map, whose iteration order is unspecified and varies between runs; the
two runs below differ only in that iteration order (the two variant lists
are permutations of each other), carry the same payload, owner, GUID and
clock, and produce the same successful result — but their `Put` call
sequences differ.  The upload order is therefore not deterministic across
runs. -/
theorem upload_put_order_differs_cex :
    List.Perm
      [("small", ([1] : List Nat)), ("medium", [2]), ("large", [3])]
      [("medium", ([2] : List Nat)), ("small", [1]), ("large", [3])] ∧
    (uploadUserImage (stdEnvV 7 10
        [("small", [1]), ("medium", [2]), ("large", [3])]) emptyStores 1
        jpegData).mainTrace
      ≠ (uploadUserImage (stdEnvV 7 10
        [("medium", [2]), ("small", [1]), ("large", [3])]) emptyStores 1
        jpegData).mainTrace ∧
    (uploadUserImage (stdEnvV 7 10
        [("small", [1]), ("medium", [2]), ("large", [3])]) emptyStores 1
        jpegData).result
      = (uploadUserImage (stdEnvV 7 10
        [("medium", [2]), ("small", [1]), ("large", [3])]) emptyStores 1
        jpegData).result := by
  refine ⟨?_, ?_, ?_⟩ <;> decide

/-- Claim C8 (amended): for a fixed payload, owner and configuration, two
runs whose `ProcessImage` maps are iterated in different orders issue the
same multiset of `ObjectStore.Put` calls — one per variant, with
identical keys and bodies, followed by the same metadata save, and with
an identical pre-delete prefix — but only as a permutation: the
sequential order of the `Put` calls follows the map iteration order and
is not deterministic across runs. -/
theorem uploadUserImage_put_order_permutation (st : Stores) (u g now : Nat)
    (variants1 variants2 : List (String × List Nat))
    (hp : st.s3.putFailKeys = []) (hperm : variants1.Perm variants2) :
    (uploadUserImage (stdEnvV g now variants1) st u jpegData).preTrace
      = (uploadUserImage (stdEnvV g now variants2) st u jpegData).preTrace ∧
    (uploadUserImage (stdEnvV g now variants1) st u jpegData).mainTrace
      = variants1.map
          (fun v => CallEv.putObj (generateUserImageKey u g v.1))
        ++ [CallEv.repoSave g] ∧
    (uploadUserImage (stdEnvV g now variants2) st u jpegData).mainTrace
      = variants2.map
          (fun v => CallEv.putObj (generateUserImageKey u g v.1))
        ++ [CallEv.repoSave g] ∧
    ((uploadUserImage (stdEnvV g now variants1) st u jpegData).mainTrace).Perm
      ((uploadUserImage (stdEnvV g now variants2) st u jpegData).mainTrace)
    := by
  obtain ⟨hm1, hq1⟩ := uploadUserImage_mainTrace_noPutFail st u g now
    variants1 hp
  obtain ⟨hm2, hq2⟩ := uploadUserImage_mainTrace_noPutFail st u g now
    variants2 hp
  refine ⟨hq1.trans hq2.symm, hm1, hm2, ?_⟩
  rw [hm1, hm2]
  exact (hperm.map _).append_right _

/-- Claim C8 witness: the amended theorem at the counterexample's two
iteration orders. -/
theorem uploadUserImage_put_order_permutation_witness :
    ((uploadUserImage (stdEnvV 7 10
        [("small", [1]), ("medium", [2]), ("large", [3])]) emptyStores 1
        jpegData).mainTrace).Perm
      ((uploadUserImage (stdEnvV 7 10
        [("medium", [2]), ("small", [1]), ("large", [3])]) emptyStores 1
        jpegData).mainTrace) :=
  (uploadUserImage_put_order_permutation emptyStores 1 7 10
    [("small", [1]), ("medium", [2]), ("large", [3])]
    [("medium", [2]), ("small", [1]), ("large", [3])]
    (by decide) (by decide)).2.2.2

/-! ## Claim C9 — only canonical size names are recorded -/

theorem applyVariantURL_ownerGUID (u g : Nat) (img : Image) (size : String) :
    (applyVariantURL u g img size).ownerGUID = img.ownerGUID := by
  by_cases h1 : size = "small" <;> by_cases h2 : size = "medium" <;>
    by_cases h3 : size = "large" <;> simp [applyVariantURL, h1, h2, h3]

theorem applyVariantURL_typeName (u g : Nat) (img : Image) (size : String) :
    (applyVariantURL u g img size).typeName = img.typeName := by
  by_cases h1 : size = "small" <;> by_cases h2 : size = "medium" <;>
    by_cases h3 : size = "large" <;> simp [applyVariantURL, h1, h2, h3]

theorem applyVariantURL_createdAt (u g : Nat) (img : Image) (size : String) :
    (applyVariantURL u g img size).createdAt = img.createdAt := by
  by_cases h1 : size = "small" <;> by_cases h2 : size = "medium" <;>
    by_cases h3 : size = "large" <;> simp [applyVariantURL, h1, h2, h3]

theorem applyVariantURL_smallURL (u g : Nat) (img : Image) (size : String) :
    (applyVariantURL u g img size).smallURL
      = if size = "small" then getURL (generateUserImageKey u g "small")
        else img.smallURL := by
  by_cases h1 : size = "small"
  · subst h1; simp [applyVariantURL]
  · by_cases h2 : size = "medium" <;> by_cases h3 : size = "large" <;>
      simp [applyVariantURL, h1, h2, h3]

theorem applyVariantURL_mediumURL (u g : Nat) (img : Image) (size : String) :
    (applyVariantURL u g img size).mediumURL
      = if size = "medium" then getURL (generateUserImageKey u g "medium")
        else img.mediumURL := by
  by_cases h2 : size = "medium"
  · subst h2; simp [applyVariantURL]
  · by_cases h1 : size = "small" <;> by_cases h3 : size = "large" <;>
      simp [applyVariantURL, h1, h2, h3]

theorem applyVariantURL_largeURL (u g : Nat) (img : Image) (size : String) :
    (applyVariantURL u g img size).largeURL
      = if size = "large" then getURL (generateUserImageKey u g "large")
        else img.largeURL := by
  by_cases h3 : size = "large"
  · subst h3; simp [applyVariantURL]
  · by_cases h1 : size = "small" <;> by_cases h2 : size = "medium" <;>
      simp [applyVariantURL, h1, h2, h3]

/-- Field characterisation of the upload loop's resulting record: the
identity fields are untouched, and each of the three canonical URL fields
is set exactly when the variant list contains its name; variant names
outside small/medium/large leave every field of the record unchanged. -/
theorem uploadVariants_fields_noPutFail :
    ∀ (l : List (String × List Nat)) (s3 : S3State)
      (hp : s3.putFailKeys = []) (u g : Nat) (img : Image),
    ∃ img', (uploadVariants s3 u g img l).1 = Except.ok img' ∧
      img'.guid = img.guid ∧ img'.ownerGUID = img.ownerGUID ∧
      img'.typeName = img.typeName ∧ img'.createdAt = img.createdAt ∧
      img'.smallURL = (if "small" ∈ l.map Prod.fst
        then getURL (generateUserImageKey u g "small") else img.smallURL) ∧
      img'.mediumURL = (if "medium" ∈ l.map Prod.fst
        then getURL (generateUserImageKey u g "medium") else img.mediumURL) ∧
      img'.largeURL = (if "large" ∈ l.map Prod.fst
        then getURL (generateUserImageKey u g "large") else img.largeURL)
    := by
  intro l
  induction l with
  | nil =>
      intro s3 hp u g img
      exact ⟨img, rfl, rfl, rfl, rfl, rfl, by simp, by simp, by simp⟩
  | cons v rest ih =>
      intro s3 hp u g img
      obtain ⟨size, d⟩ := v
      have hnm : generateUserImageKey u g size ∉ s3.putFailKeys := by
        simp [hp]
      have hstep := uploadVariants_cons_ok s3 u g img size d rest hnm
      obtain ⟨img', hok, hg', ho', ht', hc', hs', hm', hl'⟩ :=
        ih ⟨mapSet s3.objects (generateUserImageKey u g size) d,
            s3.putFailKeys, s3.deleteFailKeys⟩ hp u g
          (applyVariantURL u g img size)
      refine ⟨img', by rw [hstep]; exact hok,
        hg'.trans (applyVariantURL_guid u g img size),
        ho'.trans (applyVariantURL_ownerGUID u g img size),
        ht'.trans (applyVariantURL_typeName u g img size),
        hc'.trans (applyVariantURL_createdAt u g img size), ?_, ?_, ?_⟩
      · rw [hs', applyVariantURL_smallURL]
        by_cases hin : "small" ∈ rest.map Prod.fst
        · simp [hin]
        · by_cases hsz : size = "small"
          · subst hsz; simp [hin]
          · have hsz' : "small" ≠ size := fun hh => hsz hh.symm
            simp [hin, hsz, hsz']
      · rw [hm', applyVariantURL_mediumURL]
        by_cases hin : "medium" ∈ rest.map Prod.fst
        · simp [hin]
        · by_cases hsz : size = "medium"
          · subst hsz; simp [hin]
          · have hsz' : "medium" ≠ size := fun hh => hsz hh.symm
            simp [hin, hsz, hsz']
      · rw [hl', applyVariantURL_largeURL]
        by_cases hin : "large" ∈ rest.map Prod.fst
        · simp [hin]
        · by_cases hsz : size = "large"
          · subst hsz; simp [hin]
          · have hsz' : "large" ≠ size := fun hh => hsz hh.symm
            simp [hin, hsz, hsz']

/-- Keys not belonging to any variant of the list are untouched by the
upload loop. -/
theorem uploadVariants_objects_other :
    ∀ (l : List (String × List Nat)) (s3 : S3State) (u g : Nat)
      (img : Image) (k : String),
      (∀ v ∈ l, k ≠ generateUserImageKey u g v.1) →
      mapGet ((uploadVariants s3 u g img l).2.1).objects k
        = mapGet s3.objects k := by
  intro l
  induction l with
  | nil => intros; rfl
  | cons v rest ih =>
      intro s3 u g img k hk
      obtain ⟨size, d⟩ := v
      by_cases hnm : generateUserImageKey u g size ∈ s3.putFailKeys
      · simp [uploadVariants, s3Put, hnm]
      · rw [uploadVariants_cons_ok s3 u g img size d rest hnm]
        have hk0 : k ≠ generateUserImageKey u g size := hk (size, d) (by simp)
        rw [ih _ u g _ k (fun w hw => hk w (by simp [hw]))]
        exact mapGet_set_ne s3.objects (generateUserImageKey u g size) k d
          (Ne.symm hk0)

/-- Every variant of the list — canonical name or not — ends up stored
under its key with its body. -/
theorem uploadVariants_objects_mem :
    ∀ (l : List (String × List Nat)) (s3 : S3State)
      (hp : s3.putFailKeys = []) (u g : Nat) (img : Image),
      (l.map Prod.fst).Nodup →
      ∀ v ∈ l, mapGet ((uploadVariants s3 u g img l).2.1).objects
        (generateUserImageKey u g v.1) = some v.2 := by
  intro l
  induction l with
  | nil =>
      intro s3 hp u g img hnd v hv
      simp at hv
  | cons w rest ih =>
      intro s3 hp u g img hnd v hv
      obtain ⟨size, d⟩ := w
      have hnm : generateUserImageKey u g size ∉ s3.putFailKeys := by
        simp [hp]
      have hnd' : (size ∉ rest.map Prod.fst) ∧ (rest.map Prod.fst).Nodup := by
        constructor
        · exact (List.nodup_cons.mp (by simpa using hnd)).1
        · exact (List.nodup_cons.mp (by simpa using hnd)).2
      rw [uploadVariants_cons_ok s3 u g img size d rest hnm]
      rcases List.mem_cons.mp hv with hveq | hvrest
      · subst hveq
        rw [uploadVariants_objects_other rest _ u g _ _ ?hother]
        · exact mapGet_set_self s3.objects _ d
        case hother =>
          intro w hw
          have hsz : size ≠ w.1 := by
            intro he
            exact hnd'.1 (List.mem_map.mpr ⟨w, hw, he.symm⟩)
          exact generateUserImageKey_ne_of_size_ne u g hsz
      · exact ih
          ⟨mapSet s3.objects (generateUserImageKey u g size) d,
           s3.putFailKeys, s3.deleteFailKeys⟩
          hp u g (applyVariantURL u g img size) hnd'.2 v hvrest

/-- Timestamp refresh `SaveImage` applies to the record it stores. -/
def stampTimes (img : Image) (now : Nat) : Image :=
  { img with createdAt := now, updatedAt := now }

/-- URL the upload records for a canonical size name: present in the
variant list → the key's public URL; absent → the record keeps the Go
zero value `""`. -/
def recordedURL (u g : Nat) (vs : List (String × List Nat))
    (name : String) : String :=
  if name ∈ vs.map Prod.fst then getURL (generateUserImageKey u g name)
  else ""

/-- Claim C9: for a successful upload whose rendered variants carry
distinct names, every variant — whatever its name — is uploaded to the
object store (a `Put` appears in the trace and the object is stored under
its key), but the saved record and the returned view record URLs only for
the names `small`, `medium` and `large`: each of the record's three URL
fields equals its own name's `recordedURL`, so a variant with any other
name contributes no URL to the record. -/
theorem upload_records_only_canonical_urls (u g now : Nat)
    (vs : List (String × List Nat)) (hu : u ≠ 0) (hg : g ≠ 0)
    (hnodup : (vs.map Prod.fst).Nodup) :
    (∀ v ∈ vs, CallEv.putObj (generateUserImageKey u g v.1)
      ∈ (uploadUserImage (stdEnvV g now vs) emptyStores u
          jpegData).mainTrace) ∧
    (∀ v ∈ vs, mapGet (uploadUserImage (stdEnvV g now vs) emptyStores u
        jpegData).stores.s3.objects (generateUserImageKey u g v.1)
      = some v.2) ∧
    (∃ img, (uploadUserImage (stdEnvV g now vs) emptyStores u
        jpegData).result = Except.ok (toUserImage img) ∧
      getImageByOwner (uploadUserImage (stdEnvV g now vs) emptyStores u
        jpegData).stores.repo u "user" = some img ∧
      img.smallURL = recordedURL u g vs "small" ∧
      img.mediumURL = recordedURL u g vs "medium" ∧
      img.largeURL = recordedURL u g vs "large") := by
  have hpre : deleteUserImage emptyStores u
      = (Except.error SvcErr.notFound, emptyStores, []) :=
    deleteUserImage_noRecord emptyStores u rfl
  obtain ⟨img', hok, hfg, hfo, hft, hfc, hfs, hfm, hfl⟩ :=
    uploadVariants_fields_noPutFail vs emptyStores.s3 rfl u g
      (mkUploadImage u g now "image/jpeg" 1200 800)
  obtain ⟨htr, hpf, img2, hok2, hguid2⟩ :=
    uploadVariants_ok_of_noPutFail vs emptyStores.s3 rfl u g
      (mkUploadImage u g now "image/jpeg" 1200 800)
  have hobj := uploadVariants_objects_mem vs emptyStores.s3 rfl u g
    (mkUploadImage u g now "image/jpeg" 1200 800) hnodup
  rcases hUV : uploadVariants emptyStores.s3 u g
      (mkUploadImage u g now "image/jpeg" 1200 800) vs with ⟨res, s3', tr⟩
  rw [hUV] at hok htr hobj
  have hres : res = Except.ok img' := hok
  have htr2 : tr = vs.map
      (fun v => CallEv.putObj (generateUserImageKey u g v.1)) := htr
  have hobj2 : ∀ v ∈ vs, mapGet s3'.objects (generateUserImageKey u g v.1)
      = some v.2 := hobj
  subst hres
  subst htr2
  have hg' : img'.guid = g := by rw [hfg]; rfl
  have ho' : img'.ownerGUID = u := by rw [hfo]; rfl
  have ht' : img'.typeName = "user" := by rw [hft]; rfl
  have hc' : img'.createdAt = now := by rw [hfc]; rfl
  have hsave : saveImage emptyStores.repo img' now
      = (Except.ok (stampTimes img' now),
         ⟨[(g, stampTimes img' now)], [((u, "user"), stampTimes img' now)],
          false, false⟩) := by
    simp [saveImage, stampTimes, emptyStores, hg', ho', ht', hc', hg, hu,
      mapSet, mapDel]
  have hv := validateAndRender_stdEnvV g now vs
  have himgG : (stdEnvV g now vs).imageGUID = g := rfl
  have hnowE : (stdEnvV g now vs).now = now := rfl
  refine ⟨?_, ?_, ?_⟩
  · intro v hv'
    simp only [uploadUserImage, hv, himgG, hnowE, hUV, hsave, hpre]
    exact List.mem_append_left _ (List.mem_map.mpr ⟨v, hv', rfl⟩)
  · intro v hv'
    simp only [uploadUserImage, hv, himgG, hnowE, hUV, hsave, hpre]
    exact hobj2 v hv'
  · refine ⟨stampTimes img' now, ?_, ?_, ?_, ?_, ?_⟩
    · simp only [uploadUserImage, hv, himgG, hnowE, hUV, hsave, hpre]
    · simp only [uploadUserImage, hv, himgG, hnowE, hUV, hsave, hpre]
      simp [getImageByOwner, mapGet]
    · simp only [recordedURL]
      rw [show (stampTimes img' now).smallURL = img'.smallURL from rfl, hfs]
      rfl
    · simp only [recordedURL]
      rw [show (stampTimes img' now).mediumURL = img'.mediumURL from rfl, hfm]
      rfl
    · simp only [recordedURL]
      rw [show (stampTimes img' now).largeURL = img'.largeURL from rfl, hfl]
      rfl

/-- Claim C9 witness: a run whose variants carry the non-canonical name
`xl`: the `xl` variant is uploaded and stored, while the saved record's
URL fields record only the canonical names. -/
theorem upload_records_only_canonical_urls_witness :
    CallEv.putObj (generateUserImageKey 1 7 "xl")
      ∈ (uploadUserImage (stdEnvV 7 10 [("small", [1]), ("xl", [2])])
          emptyStores 1 jpegData).mainTrace ∧
    mapGet (uploadUserImage (stdEnvV 7 10 [("small", [1]), ("xl", [2])])
        emptyStores 1 jpegData).stores.s3.objects
        (generateUserImageKey 1 7 "xl")
      = some [2] := by
  have h := upload_records_only_canonical_urls 1 7 10
    [("small", [1]), ("xl", [2])] (by decide) (by decide) (by decide)
  exact ⟨h.1 ("xl", [2]) (by decide), h.2.1 ("xl", [2]) (by decide)⟩

/-! ## Claim C7 — `DetectImageFormat` -/

/-- Claim C7: the function `DetectImageFormat` is total on every byte sequence (the model is
a total function): inputs shorter than 12 bytes give an error, inputs of
at least 12 bytes matching none of the JPEG/PNG/GIF/WEBP magic signatures
give an error, and any input of at least 12 bytes starting with
`FF D8` yields `"image/jpeg"`. -/
theorem detectImageFormat_spec (data : List Nat) :
    (data.length < 12 →
      detectImageFormat data
        = Except.error "image data too small to determine format") ∧
    (12 ≤ data.length → isJpegSig data →
      detectImageFormat data = Except.ok "image/jpeg") ∧
    (12 ≤ data.length → ¬ isJpegSig data → ¬ isPngSig data →
      ¬ isGifSig data → ¬ isWebpSig data →
      detectImageFormat data = Except.error "unsupported image format") := by
  refine ⟨?_, ?_, ?_⟩
  · intro h
    simp [detectImageFormat, h]
  · intro h hj
    have h' : ¬ data.length < 12 := by omega
    simp [detectImageFormat, h', hj]
  · intro h hj hp hg hw
    have h' : ¬ data.length < 12 := by omega
    simp [detectImageFormat, h', hj, hp, hg, hw]

/-- Claim C7 witness: the theorem applied to a 4-byte buffer, to the 12-byte
JPEG payload, and to a 12-byte buffer matching no signature. -/
theorem detectImageFormat_spec_witness :
    detectImageFormat [1, 2, 3, 4]
      = Except.error "image data too small to determine format" ∧
    detectImageFormat jpegData = Except.ok "image/jpeg" ∧
    detectImageFormat [0, 0, 0, 0, 0, 0, 0, 0, 0, 0, 0, 0]
      = Except.error "unsupported image format" :=
  ⟨(detectImageFormat_spec [1, 2, 3, 4]).1 (by decide),
   (detectImageFormat_spec jpegData).2.1 (by decide) (by decide),
   (detectImageFormat_spec [0, 0, 0, 0, 0, 0, 0, 0, 0, 0, 0, 0]).2.2
     (by decide) (by decide) (by decide) (by decide) (by decide)⟩

end ImageService
